import Mathlib

/-!
Shallow embedding of the GVCP (GigE Vision Control Protocol) client of the
spectralcam repository (spectralcam/gige/gvcp.py and spectralcam/utils.py).

Bytes are modelled as natural numbers (an actual byte is < 256), byte strings
as `List Nat`.  Python exceptions are modelled with `Except`: each `raise`
becomes an `Except.error` carrying a constructor of `GvcpError` named after
the exception class.  Socket timeouts are modelled in integral milliseconds
(the source stores seconds as a float; the PENDING extension
`timeout / 1000 + 0.01` seconds is exactly `timeout + 10` milliseconds).
Decoded text fields keep their raw bytes (UTF-8 decoding itself is not
modelled; NUL truncation is).
-/

namespace Gvcp

/-! ### utils.py -/

/-- utils.py: `IP4_MAX_MTU = 576`. -/
def IP4_MAX_MTU : Nat := 576

/-- utils.py: `ETH_MAX_MTU = 1500`. -/
def ETH_MAX_MTU : Nat := 1500

/-- utils.py: `IP4_HEADER_SIZE = 20`. -/
def IP4_HEADER_SIZE : Nat := 20

/-- utils.py: `UDP_HEADER_SIZE = 8`. -/
def UDP_HEADER_SIZE : Nat := 8

/-- utils.py `is_uint32_4_multiple`: value is a 32-bit unsigned integer
divisible by 4 (`value >= 0` is automatic for `Nat`). -/
def is_uint32_4_multiple (value : Nat) : Bool :=
  value ≤ 0xffffffff && value % 4 == 0

/-- utils.py `bytes_to_uint16`: big-endian, `(byte_list[0] << 8) + byte_list[1]`.
The source asserts the buffer holds at least two bytes; out-of-range reads
are modelled as 0. -/
def bytes_to_uint16 (byte_list : List Nat) : Nat :=
  (byte_list.getD 0 0 <<< 8) + byte_list.getD 1 0

/-- utils.py `bytes_to_uint12`: `((byte_list[0] << 8) + byte_list[1]) & 0x0fff`. -/
def bytes_to_uint12 (byte_list : List Nat) : Nat :=
  ((byte_list.getD 0 0 <<< 8) + byte_list.getD 1 0) &&& 0x0fff

/-- utils.py `bytes_to_uint32`: big-endian composition of four bytes. -/
def bytes_to_uint32 (byte_list : List Nat) : Nat :=
  (byte_list.getD 0 0 <<< 24) + (byte_list.getD 1 0 <<< 16) +
    (byte_list.getD 2 0 <<< 8) + byte_list.getD 3 0

/-- utils.py `bytes_to_str`: decode up to the first NUL byte; if there is no
NUL the whole buffer is decoded.  The decoded text is kept as its bytes. -/
def bytes_to_str (byte_list : List Nat) : List Nat :=
  byte_list.takeWhile (fun b => b ≠ 0)

/-- utils.py `bytes_to_ip`: the four address bytes (the source renders them
as a dotted string; the bytes carry the same information). -/
def bytes_to_ip (byte_list : List Nat) : List Nat :=
  byte_list.take 4

/-! ### gvcp.py constants -/

/-- gvcp.py: `GVCP_KEY = 0x42`. -/
def GVCP_KEY : Nat := 0x42

/-- gvcp.py: `GVCP_HEADER_SIZE = 8`. -/
def GVCP_HEADER_SIZE : Nat := 8

/-- gvcp.py: `GVCP_MAX_PAYLOAD_SIZE = IP4_MAX_MTU - (IP4_HEADER_SIZE +
UDP_HEADER_SIZE + GVCP_HEADER_SIZE)` (= 540). -/
def GVCP_MAX_PAYLOAD_SIZE : Nat :=
  IP4_MAX_MTU - (IP4_HEADER_SIZE + UDP_HEADER_SIZE + GVCP_HEADER_SIZE)

/-- gvcp.py: `READMEM_HEADER_SIZE = 4`. -/
def READMEM_HEADER_SIZE : Nat := 4

/-- gvcp.py: `READMEM_MAX_PAYLOAD_SIZE = GVCP_MAX_PAYLOAD_SIZE -
READMEM_HEADER_SIZE` (= 536). -/
def READMEM_MAX_PAYLOAD_SIZE : Nat := GVCP_MAX_PAYLOAD_SIZE - READMEM_HEADER_SIZE

/-- gvcp.py: `DISCOVERY_ACK = 0x0003`. -/
def DISCOVERY_ACK : Nat := 0x0003

/-- gvcp.py: `READREG_ACK = 0x0081`. -/
def READREG_ACK : Nat := 0x0081

/-- gvcp.py: `PENDING_ACK = 0x0089`. -/
def PENDING_ACK : Nat := 0x0089

/-- gvcp.py: `REG_FIRST_URL_LEN = 512`. -/
def REG_FIRST_URL_LEN : Nat := 512

/-- gvcp.py: `REG_CCP = 0x00000A00`. -/
def REG_CCP : Nat := 0x00000A00

/-- gvcp.py: `VAL_CONTROL_ACCESS = 0x00000002`. -/
def VAL_CONTROL_ACCESS : Nat := 0x00000002

/-- gvcp.py: `REG_HEARTBEAT_TIMEOUT = 0x00000938`. -/
def REG_HEARTBEAT_TIMEOUT : Nat := 0x00000938

/-- gvcp.py: `REG_GVCP_CAPABILITY = 0x00000934`. -/
def REG_GVCP_CAPABILITY : Nat := 0x00000934

/-! ### GVCP acknowledgement parsing (`GVCPAck.__from_bytes`) -/

/-- The fields of a parsed GVCP acknowledgement header, as stored by
`GVCPAck.__from_bytes`. -/
structure Ack where
  severity : Bool
  device_specific : Bool
  status : Nat
  ack : Nat
  length : Nat
  ack_id : Nat
  payload : List Nat
deriving DecidableEq

/-- The exception classes raised by the modelled code paths
(spectralcam/exceptions.py plus Python built-ins `ValueError`,
`NotImplementedError` and `AssertionError`, and `socket.timeout`).
`ackError` carries the fully parsed ack object, from which the source also
formats the status name into the message. -/
inductive GvcpError where
  | ackLength (expected actual : Nat)
  | ackValue (info : String)
  | ackId (expected actual : Nat)
  | ackError (a : Ack)
  | assertionFail
  | valueError
  | notImplemented
  | notConnected
  | isConnected
  | timeout
deriving DecidableEq

instance {ε α : Type} [DecidableEq ε] [DecidableEq α] : DecidableEq (Except ε α) :=
  fun x y =>
    match x, y with
    | .error a, .error b =>
      if h : a = b then .isTrue (by rw [h]) else .isFalse (fun hc => h (Except.error.inj hc))
    | .ok a, .ok b =>
      if h : a = b then .isTrue (by rw [h]) else .isFalse (fun hc => h (Except.ok.inj hc))
    | .error _, .ok _ => .isFalse (fun hc => Except.noConfusion hc)
    | .ok _, .error _ => .isFalse (fun hc => Except.noConfusion hc)

/-- `GVCPAck.__from_bytes`: parse the 8-byte ack header, check the declared
payload length against the actual byte count, and raise `AckError` (carrying
the parsed ack) when the severity bit is set.  Raising `AckError` happens at
the end of the constructor, so a severity reply is reported as `AckError`
regardless of its ack-id. -/
def ackFromBytes (data : List Nat) : Except GvcpError Ack :=
  if data.length < GVCP_HEADER_SIZE then
    .error (.ackLength GVCP_HEADER_SIZE data.length)
  else
    let severity : Bool := data.getD 0 0 &&& 0x80 != 0
    let device_specific : Bool := data.getD 0 0 &&& 0x40 != 0
    let status := bytes_to_uint12 (data.take 2)
    let ack := bytes_to_uint16 ((data.drop 2).take 2)
    let length := bytes_to_uint16 ((data.drop 4).take 2)
    let ack_id := bytes_to_uint16 ((data.drop 6).take 2)
    if data.length - GVCP_HEADER_SIZE ≠ length then
      .error (.ackLength length (data.length - GVCP_HEADER_SIZE))
    else
      let a : Ack := ⟨severity, device_specific, status, ack, length, ack_id,
        (data.drop 8).take length⟩
      if severity then .error (.ackError a) else .ok a

/-! ### `GVCPDiscoveryAck.__init__` -/

/-- The attributes `GVCPDiscoveryAck.__init__` stores after parsing the
248-byte discovery payload.  Text fields are the `bytes_to_str` of payload
slices, IP fields the `bytes_to_ip` of payload slices, and the MAC is kept
as its six raw bytes (the source formats them as a hex string). -/
structure DiscoveryFields where
  spec_version_major : Nat
  spec_version_minor : Nat
  endianess : Nat
  device_class : Nat
  link_config : Nat
  charset : Nat
  mac_bytes : List Nat
  ip_config_options : Nat
  ip_config_current : Nat
  current_ip : List Nat
  current_subnet_mask : List Nat
  default_gateway : List Nat
  manufacturer_name : List Nat
  model_name : List Nat
  device_version : List Nat
  manufacturer_specific_info : List Nat
  serial_number : List Nat
  user_defined_name : List Nat
deriving DecidableEq

/-- `GVCPDiscoveryAck.__init__` after the `GVCPAck` base constructor: checks
the ack code and the payload length 248, then slices the payload exactly as
the source does.  Note the source reads `payload[136:168]` for BOTH
`device_version` and `manufacturer_specific_info`. -/
def discoveryParse (a : Ack) : Except GvcpError DiscoveryFields :=
  if a.ack ≠ DISCOVERY_ACK then
    .error (.ackValue "not a discovery ack")
  else if a.length ≠ 248 then
    .error (.ackLength 248 a.length)
  else
    let payload := a.payload
    let device_mode := bytes_to_uint32 ((payload.drop 4).take 4)
    .ok
      { spec_version_major := bytes_to_uint16 (payload.take 2)
        spec_version_minor := bytes_to_uint16 ((payload.drop 2).take 2)
        endianess := (device_mode &&& 0x80000000) >>> 31
        device_class := (device_mode &&& 0x70000000) >>> 28
        link_config := (device_mode &&& 0x0F000000) >>> 24
        charset := device_mode &&& 0xFF
        mac_bytes := (payload.drop 10).take 6
        ip_config_options := bytes_to_uint32 ((payload.drop 16).take 4)
        ip_config_current := bytes_to_uint32 ((payload.drop 20).take 4)
        current_ip := bytes_to_ip ((payload.drop 36).take 4)
        current_subnet_mask := bytes_to_ip ((payload.drop 52).take 4)
        default_gateway := bytes_to_ip ((payload.drop 68).take 4)
        manufacturer_name := bytes_to_str ((payload.drop 72).take 32)
        model_name := bytes_to_str ((payload.drop 104).take 32)
        device_version := bytes_to_str ((payload.drop 136).take 32)
        manufacturer_specific_info := bytes_to_str ((payload.drop 136).take 32)
        serial_number := bytes_to_str ((payload.drop 216).take 16)
        user_defined_name := bytes_to_str (payload.drop 232) }

/-! ### `GVCPCmd.__init__` (command encoding) -/

/-- `GVCPCmd.__init__`: builds the 8-byte header followed by the payload and
zero padding.  The four `assert` statements become the guard; a violated
assert is modelled as `none`.  The padding `[0x00] * (payload_len % 4)` is
written exactly as in the source (it is empty because the guard requires
`payload_len % 4 == 0`). -/
def mkGVCPCmdData (req_id cmd cmd_flag : Nat) (payload : List Nat) (ack : Bool) :
    Option (List Nat) :=
  if cmd ≤ 0xffff ∧ cmd_flag ≤ 15 ∧
      payload.length ≤ GVCP_MAX_PAYLOAD_SIZE ∧ payload.length % 4 = 0 then
    let flag := (cmd_flag <<< 4) + (if ack then 1 else 0)
    let cmd_msb := 0xff &&& (cmd >>> 8)
    let cmd_lsb := 0xff &&& cmd
    let payload_len := payload.length
    let payload_len_msb := 0xff &&& (payload_len >>> 8)
    let payload_len_lsb := 0xff &&& payload_len
    let req_id_msb := 0xff &&& (req_id >>> 8)
    let req_id_lsb := 0xff &&& req_id
    some ([GVCP_KEY, flag, cmd_msb, cmd_lsb, payload_len_msb, payload_len_lsb,
      req_id_msb, req_id_lsb] ++ payload ++ List.replicate (payload_len % 4) 0)
  else
    none

/-- `GVCPReadMemCmd.__init__` argument validation: address must be a 4-aligned
uint32, the byte count at least 1, a multiple of 4, and at most
`READMEM_MAX_PAYLOAD_SIZE`.  Each violated check raises `ValueError`. -/
def readMemCmdValidate (addr count : Nat) : Except GvcpError Unit :=
  if ¬ is_uint32_4_multiple addr then .error .valueError
  else if count < 1 then .error .valueError
  else if ¬ is_uint32_4_multiple count then .error .valueError
  else if count > READMEM_MAX_PAYLOAD_SIZE then .error .valueError
  else .ok ()

/-! ### `GVCPRequestId` -/

/-- `GVCPRequestId.__init__`: the counter starts at 1. -/
def reqIdInit : Nat := 1

/-- `GVCPRequestId.get`: return the current counter, increment it, and wrap
the stored counter back to 1 when it exceeds 65535.  Returns
(emitted id, new counter). -/
def reqIdGet (req_id : Nat) : Nat × Nat :=
  let next := req_id + 1
  (req_id, if next > 65535 then 1 else next)

/-- The stored counter after `n` calls of `get` on a fresh allocator. -/
def reqIdIter : Nat → Nat
  | 0 => reqIdInit
  | n + 1 => (reqIdGet (reqIdIter n)).2

/-- The id emitted by call number `n` (0-based) on a fresh allocator. -/
def reqIdEmit (n : Nat) : Nat := (reqIdGet (reqIdIter n)).1

/-! ### `GVCP._handle_ack` and the receive loop -/

/-- The mutable connection state touched by `GVCP._handle_ack`: the pending
flag, the current socket timeout, and the configured default timeout
`self._soc_timeout` (both in milliseconds). -/
structure GvcpSt where
  pending : Bool
  socTimeoutMs : Nat
  defTimeoutMs : Nat
deriving DecidableEq

/-- The PENDING handling at the end of `GVCP._handle_ack`.  On a PENDING ack
the source asserts `response.length >= 4`; only when the pending flag was
still clear it reads the proposed timeout from `data[10:12]` (payload bytes
2..4) and extends the socket timeout by that many milliseconds plus 10.  On
any other ack received while pending, it restores the default timeout. -/
def pendingStep (st : GvcpSt) (data : List Nat) (response : Ack) :
    Except GvcpError GvcpSt :=
  if response.ack = PENDING_ACK then
    if response.length < 4 then .error .assertionFail
    else if ¬ st.pending then
      .ok { st with pending := true,
                    socTimeoutMs := bytes_to_uint16 ((data.drop 10).take 2) + 10 }
    else .ok st
  else if st.pending then
    .ok { st with pending := false, socTimeoutMs := st.defTimeoutMs }
  else .ok st

/-- `GVCP._handle_ack`: parse the datagram (which itself raises `AckError`
for severity replies and `AckLengthError` for malformed ones), then compare
the ack-id against the outstanding request-id, then run the PENDING logic. -/
def handle_ack (st : GvcpSt) (data : List Nat) (req_id : Option Nat) :
    Except GvcpError (Ack × GvcpSt) :=
  match ackFromBytes data with
  | .error e => .error e
  | .ok response =>
    match req_id with
    | some r =>
      if response.ack_id ≠ r then .error (.ackId r response.ack_id)
      else (pendingStep st data response).map (fun st2 => (response, st2))
    | none => (pendingStep st data response).map (fun st2 => (response, st2))

/-- What one `self._soc.recv(ETH_MAX_MTU)` yields: either a datagram or a
`socket.timeout`. -/
inductive RecvEvent where
  | timeout
  | datagram (d : List Nat)
deriving DecidableEq

/-- The receive part of `GVCP._exec_request`: one `_handle_ack` on the first
received event, then `while self._pending:` keep receiving.  Consumes events
from the front of the list; an exhausted event list behaves like a socket
timeout.  Returns the result, the state after the loop, and the unconsumed
events. -/
def recvPhase (rid : Nat) : List RecvEvent → GvcpSt →
    Except GvcpError Ack × GvcpSt × List RecvEvent
  | [], st => (.error .timeout, st, [])
  | .timeout :: rest, st => (.error .timeout, st, rest)
  | .datagram d :: rest, st =>
    match handle_ack st d (some rid) with
    | .error e => (.error e, st, rest)
    | .ok (a, st2) =>
      if st2.pending then recvPhase rid rest st2 else (.ok a, st2, rest)

/-- `GVCP._exec_request`: send the request bytes, and if an ack is required
run the receive loop; only `socket.timeout` is caught, and it triggers a
re-send while `retry < self.retries`.  The source counts `retry` upwards
from 1; here `remaining = self.retries - retry` counts the still-allowed
re-sends downwards (the initial call uses `remaining = retries - 1`), which
makes the recursion structural.  Returns the result (`none` when no ack was
requested), the final state, and the list of datagrams sent in order. -/
def execRequest (reqData : List Nat) (rid : Nat) (needAck : Bool) :
    List RecvEvent → GvcpSt → Nat →
    Except GvcpError (Option Ack) × GvcpSt × List (List Nat)
  | events, st, remaining =>
    if ¬ needAck then (.ok none, st, [reqData])
    else
      match recvPhase rid events st with
      | (.ok a, st2, _) => (.ok (some a), st2, [reqData])
      | (.error .timeout, st2, rest) =>
        match remaining with
        | r + 1 =>
          let out := execRequest reqData rid needAck rest st2 r
          (out.1, out.2.1, reqData :: out.2.2)
        | 0 => (.error .timeout, st2, [reqData])
      | (.error e, st2, _) => (.error e, st2, [reqData])

/-- `GVCP._request`: runs `_exec_request(request, 1)` under the socket lock,
i.e. with `retries - 1` re-sends still allowed. -/
def requestModel (retries : Nat) (reqData : List Nat) (rid : Nat) (needAck : Bool)
    (events : List RecvEvent) (st : GvcpSt) :
    Except GvcpError (Option Ack) × GvcpSt × List (List Nat) :=
  execRequest reqData rid needAck events st (retries - 1)

/-! ### `GVCP.connect` -/

/-- A register operation sent on the wire by `GVCP.connect`. -/
inductive WireOp where
  | writereg (addr value : Nat)
  | readreg (addr : Nat)
deriving DecidableEq

/-- What a call to `GVCP.connect` did. -/
structure ConnectOutcome where
  result : Except GvcpError Unit
  ops : List WireOp
  connected : Bool
  heartbeatStarted : Bool
deriving DecidableEq

/-- `GVCP.connect`: raise `IsConnectedError` when already connected (before
any traffic); otherwise open the socket and issue
WRITEREG(CCP, VAL_CONTROL_ACCESS), WRITEREG(HEARTBEAT_TIMEOUT, timeout in
ms), READREG(CCP) in that order.  When the read yields VAL_CONTROL_ACCESS
the heartbeat thread is started and the connection stays open; otherwise the
socket is closed (`self._soc = None`, i.e. disconnected) and
`NotConnectedError` is raised.  `ccpReadValue` stands for the value the
camera returns for the CCP read; `hbTimeoutMs` for
`round(self._heartbeat_timeout * 1000)`. -/
def connectGVCP (alreadyConnected : Bool) (hbTimeoutMs : Nat) (ccpReadValue : Nat) :
    ConnectOutcome :=
  if alreadyConnected then
    ⟨.error .isConnected, [], true, false⟩
  else
    let ops := [WireOp.writereg REG_CCP VAL_CONTROL_ACCESS,
                WireOp.writereg REG_HEARTBEAT_TIMEOUT hbTimeoutMs,
                WireOp.readreg REG_CCP]
    if ccpReadValue = VAL_CONTROL_ACCESS then
      ⟨.ok (), ops, true, true⟩
    else
      ⟨.error .notConnected, ops, false, false⟩

/-! ### Capability probe (`GVCP._check_capability` and its users) -/

/-- The four cached capability flags (`None` before the first probe). -/
structure CapCache where
  concat_support : Option Bool
  writemem_support : Option Bool
  action_support : Option Bool
  scheduled_action_support : Option Bool
deriving DecidableEq

/-- `GVCP.__init__`: all four caches start as `None`. -/
def capInit : CapCache := ⟨none, none, none, none⟩

/-- `GVCP._check_capability`: one READREG of `REG_GVCP_CAPABILITY`, then
cache the four feature bits from the returned word. -/
def check_capability (capability : Nat) : CapCache :=
  ⟨some (capability &&& 0x00000001 != 0),
   some (capability &&& 0x00000002 != 0),
   some (capability &&& 0x00000040 != 0),
   some (capability &&& 0x00020000 != 0)⟩

/-- The concatenation gate in `GVCP.readreg` / `GVCP.writereg`: only when
more than one address is passed, probe the capability register if the cache
is unset, then raise `NotImplementedError` when concatenation is
unsupported.  `capability` is the word a probe would read.  Returns the new
cache, the number of capability reads performed, and whether the actual
command is sent (`.ok`) or the call aborts (`.error .notImplemented`). -/
def readregGate (numAddrs : Nat) (st : CapCache) (capability : Nat) :
    CapCache × Nat × Except GvcpError Unit :=
  if numAddrs > 1 then
    let probed := if st.concat_support.isNone then (check_capability capability, 1)
                  else (st, 0)
    if probed.1.concat_support.getD false then (probed.1, probed.2, .ok ())
    else (probed.1, probed.2, .error .notImplemented)
  else (st, 0, .ok ())

/-- The WRITEMEM gate in `GVCP.writemem`: probe on first use, then raise
`NotImplementedError` when WRITEMEM is unsupported, without sending. -/
def writememGate (st : CapCache) (capability : Nat) :
    CapCache × Nat × Except GvcpError Unit :=
  let probed := if st.writemem_support.isNone then (check_capability capability, 1)
                else (st, 0)
  if probed.1.writemem_support.getD false then (probed.1, probed.2, .ok ())
  else (probed.1, probed.2, .error .notImplemented)

/-- The ACTION gate in `GVCP.action`: check ACTION support, and when an
action time is given additionally check scheduled-ACTION support; each check
probes at most once and raises `NotImplementedError` without sending when
the cached bit is absent. -/
def actionGate (hasTime : Bool) (st : CapCache) (capability : Nat) :
    CapCache × Nat × Except GvcpError Unit :=
  let probed := if st.action_support.isNone then (check_capability capability, 1)
                else (st, 0)
  if ¬ probed.1.action_support.getD false then
    (probed.1, probed.2, .error .notImplemented)
  else if hasTime then
    let probed2 := if probed.1.scheduled_action_support.isNone then
                     (check_capability capability, probed.2 + 1)
                   else probed
    if probed2.1.scheduled_action_support.getD false then
      (probed2.1, probed2.2, .ok ())
    else (probed2.1, probed2.2, .error .notImplemented)
  else (probed.1, probed.2, .ok ())

/-! ### `GVCP.get_device_description_file`, local branch -/

/-- `GVCP.readmem` on a camera whose memory holds byte `mem a` at address
`a`: validate the arguments exactly as `GVCPReadMemCmd.__init__` does, then
return the requested bytes.  (The response-address check and the return-type
handling do not affect the modelled claims.) -/
def readmemModel (mem : Nat → Nat) (addr count : Nat) :
    Except GvcpError (List Nat) :=
  match readMemCmdValidate addr count with
  | .error e => .error e
  | .ok _ => .ok ((List.range count).map (fun i => mem (addr + i)))

/-- The `while len_left >= packet_size:` chunk loop of
`GVCP.get_device_description_file` with `packet_size = 512`: fetch 512-byte
chunks, advancing the address and decreasing the remaining length.  Returns
the accumulated bytes, the address after the loop, and the remaining
length. -/
def fetchLoop (mem : Nat → Nat) (addr len_left : Nat) (acc : List Nat) :
    Except GvcpError (List Nat × Nat × Nat) :=
  if h : 512 ≤ len_left then
    match readmemModel mem addr 512 with
    | .error e => .error e
    | .ok part => fetchLoop mem (addr + 512) (len_left - 512) (acc ++ part)
  else
    .ok (acc, addr, len_left)
termination_by len_left
decreasing_by omega

/-- Stands for reading the single XML member out of a ZIP archive; no claim
exercises the ZIP branch, so the archive bytes are returned as they are. -/
def zipExtract (ddf : List Nat) : List Nat := ddf

/-- The format dispatch at the end of the `local` branch of
`GVCP.get_device_description_file`.  The source writes
`if extension == "xml": xml_str = ddf` and then a SEPARATE
`if extension == "zip": ... else: raise AckValueError(...)`; because the
second `if` is not an `elif`, its `else` arm also runs for `"xml"` and the
first assignment is dead.  The dead assignment is kept as `_xml_str`. -/
def ddfFormat (ddf : List Nat) (ext : String) : Except GvcpError (List Nat) :=
  let _xml_str := if ext = "xml" then some ddf else none
  if ext = "zip" then .ok (zipExtract ddf)
  else .error (.ackValue ext)

/-- The `local` branch of `GVCP.get_device_description_file`: run the
512-byte chunk loop, round the leftover length up to a multiple of 4, issue
one final READMEM for it, truncate to the declared total length, and
dispatch on the file extension. -/
def get_ddf_local (mem : Nat → Nat) (addr len_total : Nat) (ext : String) :
    Except GvcpError (List Nat) :=
  match fetchLoop mem addr len_total [] with
  | .error e => .error e
  | .ok (ddf0, addr2, left0) =>
    let left1 := if left0 % 4 ≠ 0 then left0 + 4 - left0 % 4 else left0
    match readmemModel mem addr2 left1 with
    | .error e => .error e
    | .ok part => ddfFormat ((ddf0 ++ part).take len_total) ext

/-- An all-zero camera memory, used for concrete runs. -/
def zeroMem : Nat → Nat := fun _ => 0

end Gvcp

namespace Gvcp

/-! ### Helper lemmas -/

/-- Masking with 255 is reduction modulo 256. -/
lemma and255_eq_mod (x : Nat) : 255 &&& x = x % 256 := by
  rw [Nat.and_comm]
  have h := Nat.and_pow_two_sub_one_eq_mod x 8
  simpa using h

/-- A single-bit mask test is `Nat.testBit`. -/
lemma and_bit_ne_zero (c i : Nat) : (c &&& 2 ^ i != 0) = c.testBit i := by
  rw [Nat.and_two_pow]
  cases h : c.testBit i
  · simp [h]
  · simp only [h, Bool.toNat_true, one_mul, bne_iff_ne, ne_eq]
    exact (pow_pos (by norm_num : (0:ℕ) < 2) i).ne'

/-- The stored request-id counter always stays in `1..65535`. -/
lemma reqIdIter_bounds (n : Nat) : 1 ≤ reqIdIter n ∧ reqIdIter n ≤ 65535 := by
  induction n with
  | zero => exact ⟨le_refl 1, by simp [reqIdIter, reqIdInit]⟩
  | succ n ih =>
    simp only [reqIdIter, reqIdGet]
    split <;> omega

/-! ### Claim theorems -/

/-- A concrete 248-byte DISCOVERY ack payload with a distinct marker byte in
each text region: bytes 72..104 hold 77, 104..136 hold 78, 136..168 hold 65,
168..216 hold 66, 216..232 hold 2, 232..248 hold 3. -/
def c1Payload : List Nat :=
  List.replicate 72 1 ++ List.replicate 32 77 ++ List.replicate 32 78 ++
    List.replicate 32 65 ++ List.replicate 48 66 ++ List.replicate 16 2 ++
    List.replicate 16 3

/-- A well-formed DISCOVERY acknowledgement carrying `c1Payload`. -/
def c1DiscoveryAck : Ack := ⟨false, false, 0, DISCOVERY_ACK, 248, 1, c1Payload⟩

/-- Claim C1: evaluated on a 248-byte payload whose claimed
manufacturer-specific region (bytes 168..216, value 66) differs from the
device-version region (bytes 136..168, value 65), the parser stores the
bytes 136..168 in `manufacturer_specific_info` - the same slice as
`device_version` - and NOT the decode of bytes 168..216 the claim
specifies; the remaining fields and the length-248 check behave as
claimed. -/
theorem C1_manufacturer_info_eval :
    (discoveryParse c1DiscoveryAck).map (fun f => f.manufacturer_specific_info)
      = .ok (List.replicate 32 65)
  ∧ (discoveryParse c1DiscoveryAck).map (fun f => f.device_version)
      = .ok (List.replicate 32 65)
  ∧ bytes_to_str ((c1Payload.drop 168).take 48) = List.replicate 48 66
  ∧ (discoveryParse c1DiscoveryAck).map (fun f => f.manufacturer_specific_info)
      ≠ .ok (bytes_to_str ((c1Payload.drop 168).take 48))
  ∧ (discoveryParse c1DiscoveryAck).map (fun f => f.manufacturer_name)
      = .ok (List.replicate 32 77)
  ∧ (discoveryParse c1DiscoveryAck).map (fun f => f.model_name)
      = .ok (List.replicate 32 78)
  ∧ (discoveryParse c1DiscoveryAck).map (fun f => f.serial_number)
      = .ok (List.replicate 16 2)
  ∧ (discoveryParse c1DiscoveryAck).map (fun f => f.user_defined_name)
      = .ok (List.replicate 16 3)
  ∧ discoveryParse ⟨false, false, 0, DISCOVERY_ACK, 244, 1, c1Payload.take 244⟩
      = .error (.ackLength 248 244) := by
  refine ⟨by decide, by decide, by decide, by decide, by decide, by decide,
    by decide, by decide, by decide⟩

/-- Claim C6: the request-id allocator starts at 1, never emits 0, keeps its
counter in `1..65535`, and each emitted id is the previous one plus 1 except
that 65535 wraps to 1. -/
theorem C6_request_id_allocator :
    reqIdEmit 0 = 1
  ∧ (∀ n, 1 ≤ reqIdIter n ∧ reqIdIter n ≤ 65535)
  ∧ (∀ n, reqIdEmit n ≠ 0)
  ∧ (∀ n, reqIdEmit (n + 1) = if reqIdEmit n = 65535 then 1 else reqIdEmit n + 1) := by
  have hemit : ∀ n, reqIdEmit n = reqIdIter n := fun n => rfl
  refine ⟨rfl, reqIdIter_bounds, ?_, ?_⟩
  · intro n
    have h := reqIdIter_bounds n
    rw [hemit]
    omega
  · intro n
    have h := reqIdIter_bounds n
    simp only [reqIdEmit, reqIdIter, reqIdGet]
    split_ifs <;> omega

/-- Claim C7: connect on an already connected client raises IsConnected
without sending anything; otherwise it sends WRITEREG(CCP, 2),
WRITEREG(HEARTBEAT_TIMEOUT, ms), READREG(CCP) in order, and either (CCP
read 2) starts the heartbeat and stays connected, or (any other value)
closes the socket, ends up disconnected, and raises NotConnected. -/
theorem C7_connect_protocol (hbTimeoutMs ccp : Nat) :
    connectGVCP true hbTimeoutMs ccp = ⟨.error .isConnected, [], true, false⟩
  ∧ (ccp = VAL_CONTROL_ACCESS →
      connectGVCP false hbTimeoutMs ccp =
        ⟨.ok (), [WireOp.writereg REG_CCP VAL_CONTROL_ACCESS,
                  WireOp.writereg REG_HEARTBEAT_TIMEOUT hbTimeoutMs,
                  WireOp.readreg REG_CCP], true, true⟩)
  ∧ (ccp ≠ VAL_CONTROL_ACCESS →
      connectGVCP false hbTimeoutMs ccp =
        ⟨.error .notConnected, [WireOp.writereg REG_CCP VAL_CONTROL_ACCESS,
                  WireOp.writereg REG_HEARTBEAT_TIMEOUT hbTimeoutMs,
                  WireOp.readreg REG_CCP], false, false⟩) := by
  refine ⟨rfl, ?_, ?_⟩ <;> intro h <;> simp [connectGVCP, h]

/-- Witness for C7 at heartbeat timeout 5000 ms with CCP reads 2 and 0. -/
theorem C7_connect_protocol_witness :
    connectGVCP false 5000 2 =
      ⟨.ok (), [WireOp.writereg REG_CCP VAL_CONTROL_ACCESS,
                WireOp.writereg REG_HEARTBEAT_TIMEOUT 5000,
                WireOp.readreg REG_CCP], true, true⟩
  ∧ connectGVCP false 5000 0 =
      ⟨.error .notConnected, [WireOp.writereg REG_CCP VAL_CONTROL_ACCESS,
                WireOp.writereg REG_HEARTBEAT_TIMEOUT 5000,
                WireOp.readreg REG_CCP], false, false⟩ :=
  ⟨(C7_connect_protocol 5000 2).2.1 rfl, (C7_connect_protocol 5000 0).2.2 (by decide)⟩

end Gvcp

namespace Gvcp

/-- Claim C5: for a payload whose length is a multiple of 4 and at most 540,
the encoded datagram is the 8-byte header (key 0x42; flag byte
`cmd_flag * 16 + ack bit`; big-endian 16-bit command code, payload length
and request-id) followed by the payload (the zero padding to a 4-byte
boundary is empty because the length is already a multiple of 4); a payload
longer than 540 bytes is rejected. -/
theorem C5_cmd_encoding (req_id cmd cmd_flag : Nat) (payload : List Nat) (ack : Bool) :
    (cmd ≤ 0xffff → cmd_flag ≤ 15 → req_id ≤ 0xffff →
      payload.length % 4 = 0 → payload.length ≤ 540 →
      mkGVCPCmdData req_id cmd cmd_flag payload ack =
        some ([0x42, cmd_flag * 16 + (if ack then 1 else 0),
               cmd / 256, cmd % 256,
               payload.length / 256, payload.length % 256,
               req_id / 256, req_id % 256] ++ payload))
  ∧ (payload.length > 540 → mkGVCPCmdData req_id cmd cmd_flag payload ack = none) := by
  have hmax : GVCP_MAX_PAYLOAD_SIZE = 540 := by decide
  constructor
  · intro h1 h2 h3 h4 h5
    rw [mkGVCPCmdData, if_pos ⟨h1, h2, by rw [hmax]; exact h5, h4⟩]
    simp only [h4, List.replicate_zero, List.append_nil, GVCP_KEY, and255_eq_mod,
      Nat.shiftLeft_eq, Nat.shiftRight_eq_div_pow, Option.some.injEq, List.cons.injEq,
      List.append_cancel_right_eq, and_true, true_and]
    norm_num
    omega
  · intro h
    rw [mkGVCPCmdData, if_neg]
    rw [hmax]
    omega

set_option maxRecDepth 8192 in
/-- Witness for C5: a WRITEREG command (code 0x0082) with an 8-byte payload,
request-id 0x1234, flag 0, ack required; and rejection of a 544-byte
payload. -/
theorem C5_cmd_encoding_witness :
    mkGVCPCmdData 0x1234 0x0082 0 [0, 0, 10, 0, 0, 0, 0, 7] true =
      some [0x42, 1, 0, 0x82, 0, 8, 0x12, 0x34, 0, 0, 10, 0, 0, 0, 0, 7]
  ∧ mkGVCPCmdData 1 2 0 (List.replicate 544 0) true = none := by
  constructor
  · exact ((C5_cmd_encoding 0x1234 0x0082 0 [0, 0, 10, 0, 0, 0, 0, 7] true).1
      (by decide) (by decide) (by decide) (by decide) (by decide)).trans (by decide)
  · exact (C5_cmd_encoding 1 2 0 (List.replicate 544 0) true).2 (by decide)

/-- Claim C8: the capability probe reads the GVCP_CAPABILITY register once
on first use and caches bit 0 (concatenation), bit 1 (WRITEMEM), bit 6
(ACTION) and bit 17 (scheduled ACTION); a later call that needs a feature
whose cached bit is absent raises NotImplemented (no wire command), without
probing again. -/
theorem C8_capability_probe (capability capability2 n : Nat) :
    (check_capability capability =
      ⟨some (capability.testBit 0), some (capability.testBit 1),
       some (capability.testBit 6), some (capability.testBit 17)⟩)
  ∧ (n > 1 → readregGate n capInit capability =
      (check_capability capability, 1,
        if capability.testBit 0 then .ok () else .error .notImplemented))
  ∧ (n > 1 → readregGate n (check_capability capability) capability2 =
      (check_capability capability, 0,
        if capability.testBit 0 then .ok () else .error .notImplemented))
  ∧ (writememGate capInit capability =
      (check_capability capability, 1,
        if capability.testBit 1 then .ok () else .error .notImplemented))
  ∧ (writememGate (check_capability capability) capability2 =
      (check_capability capability, 0,
        if capability.testBit 1 then .ok () else .error .notImplemented))
  ∧ (actionGate false capInit capability =
      (check_capability capability, 1,
        if capability.testBit 6 then .ok () else .error .notImplemented))
  ∧ (actionGate true capInit capability =
      (check_capability capability, 1,
        if capability.testBit 6 then
          (if capability.testBit 17 then .ok () else .error .notImplemented)
        else .error .notImplemented))
  ∧ (actionGate true (check_capability capability) capability2 =
      (check_capability capability, 0,
        if capability.testBit 6 then
          (if capability.testBit 17 then .ok () else .error .notImplemented)
        else .error .notImplemented)) := by
  have hm0 : (capability &&& 1 != 0) = capability.testBit 0 := and_bit_ne_zero capability 0
  have hm1 : (capability &&& 2 != 0) = capability.testBit 1 := and_bit_ne_zero capability 1
  have hm6 : (capability &&& 64 != 0) = capability.testBit 6 := and_bit_ne_zero capability 6
  have hm17 : (capability &&& 131072 != 0) = capability.testBit 17 :=
    and_bit_ne_zero capability 17
  have hbits : check_capability capability =
      ⟨some (capability.testBit 0), some (capability.testBit 1),
       some (capability.testBit 6), some (capability.testBit 17)⟩ := by
    rw [check_capability, hm0, hm1, hm6, hm17]
  refine ⟨hbits, ?_, ?_, ?_, ?_, ?_, ?_, ?_⟩
  · intro hn
    rw [readregGate, if_pos hn]
    simp only [capInit, Option.isNone_none, if_true, hbits]
    cases h : capability.testBit 0 <;> simp [h]
  · intro hn
    rw [readregGate, if_pos hn, hbits]
    cases h : capability.testBit 0 <;> simp [h]
  · rw [writememGate]
    simp only [capInit, Option.isNone_none, if_true, hbits]
    cases h : capability.testBit 1 <;> simp [h]
  · rw [writememGate, hbits]
    cases h : capability.testBit 1 <;> simp [h]
  · rw [actionGate]
    simp only [capInit, Option.isNone_none, if_true, hbits]
    cases h : capability.testBit 6 <;> simp [h]
  · rw [actionGate]
    simp only [capInit, Option.isNone_none, if_true, hbits]
    cases h6 : capability.testBit 6 <;> cases h17 : capability.testBit 17 <;>
      simp [h6, h17]
  · rw [actionGate, hbits]
    cases h6 : capability.testBit 6 <;> cases h17 : capability.testBit 17 <;>
      simp [h6, h17]

/-- Witness for C8 with capability word 0x41 (concatenation and ACTION
supported, WRITEMEM and scheduled ACTION absent), two addresses. -/
theorem C8_capability_probe_witness :
    readregGate 2 capInit 0x41 = (check_capability 0x41, 1, .ok ())
  ∧ readregGate 2 (check_capability 0x41) 0 = (check_capability 0x41, 0, .ok ())
  ∧ writememGate (check_capability 0x41) 0 =
      (check_capability 0x41, 0, .error .notImplemented)
  ∧ actionGate true (check_capability 0x41) 0 =
      (check_capability 0x41, 0, .error .notImplemented) := by
  have h := C8_capability_probe 0x41 0 2
  refine ⟨?_, ?_, ?_, ?_⟩
  · exact (h.2.1 (by decide)).trans (by decide)
  · exact (h.2.2.1 (by decide)).trans (by decide)
  · exact h.2.2.2.2.1.trans (by decide)
  · exact h.2.2.2.2.2.2.2.trans (by decide)

end Gvcp

namespace Gvcp

/-- `ackFromBytes` never raises a socket timeout. -/
lemma ackFromBytes_ne_timeout (data : List Nat) :
    ackFromBytes data ≠ .error .timeout := by
  simp only [ackFromBytes]
  split
  · simp
  · split
    · simp
    · split <;> simp

/-- `pendingStep` never raises a socket timeout. -/
lemma pendingStep_ne_timeout (st : GvcpSt) (data : List Nat) (r : Ack) :
    pendingStep st data r ≠ .error .timeout := by
  unfold pendingStep
  split
  · split
    · simp
    · split <;> simp
  · split <;> simp

/-- `_handle_ack` never raises a socket timeout: every error a received
datagram can produce is a parse or validation error. -/
lemma handle_ack_ne_timeout (st : GvcpSt) (data : List Nat) (rid : Option Nat)
    (e : GvcpError) (h : handle_ack st data rid = .error e) : e ≠ .timeout := by
  intro he
  subst he
  unfold handle_ack at h
  cases hab : ackFromBytes data with
  | error e2 =>
    rw [hab] at h
    simp only at h
    exact ackFromBytes_ne_timeout data (by rw [hab, Except.error.inj h])
  | ok a =>
    rw [hab] at h
    cases rid with
    | none =>
      simp only at h
      cases hps : pendingStep st data a with
      | error e3 =>
        rw [hps] at h
        simp only [Except.map] at h
        exact pendingStep_ne_timeout st data a (by rw [hps, Except.error.inj h])
      | ok s2 =>
        rw [hps] at h
        simp [Except.map] at h
    | some r =>
      simp only at h
      split at h
      · simp at h
      · cases hps : pendingStep st data a with
        | error e3 =>
          rw [hps] at h
          simp only [Except.map] at h
          exact pendingStep_ne_timeout st data a (by rw [hps, Except.error.inj h])
        | ok s2 =>
          rw [hps] at h
          simp [Except.map] at h

/-- When the severity bit is clear, `_handle_ack` can never raise `AckError`. -/
lemma handle_ack_no_ackError (st : GvcpSt) (data : List Nat) (rid : Option Nat)
    (a : Ack) (hbit : data.getD 0 0 &&& 0x80 = 0) :
    handle_ack st data rid ≠ .error (.ackError a) := by
  intro h
  unfold handle_ack at h
  have hab : ∀ b, ackFromBytes data ≠ .error (.ackError b) := by
    intro b hc
    simp only [ackFromBytes] at hc
    split at hc
    · simp at hc
    · rw [hbit] at hc
      simp at hc
      split at hc <;> simp_all
  cases habk : ackFromBytes data with
  | error e2 =>
    rw [habk] at h
    simp only at h
    exact hab a (habk.trans (congrArg Except.error (Except.error.inj h)))
  | ok a2 =>
    rw [habk] at h
    have hps : ∀ s2, pendingStep st data a2 ≠ .error (.ackError s2) := by
      intro s2 hc
      unfold pendingStep at hc
      split at hc
      · split at hc
        · simp at hc
        · split at hc <;> simp at hc
      · split at hc <;> simp at hc
    cases rid with
    | none =>
      simp only at h
      cases hq : pendingStep st data a2 with
      | error e3 =>
        rw [hq] at h
        simp only [Except.map] at h
        exact hps a (by rw [hq, Except.error.inj h])
      | ok s2 =>
        rw [hq] at h
        simp [Except.map] at h
    | some r =>
      simp only at h
      split at h
      · simp at h
      · cases hq : pendingStep st data a2 with
        | error e3 =>
          rw [hq] at h
          simp only [Except.map] at h
          exact hps a (by rw [hq, Except.error.inj h])
        | ok s2 =>
          rw [hq] at h
          simp [Except.map] at h

/-- Parsing a well-formed non-severity datagram succeeds with the header
fields at their specified offsets. -/
lemma ackFromBytes_ok (data : List Nat)
    (hlen : GVCP_HEADER_SIZE ≤ data.length)
    (hbit : data.getD 0 0 &&& 0x80 = 0)
    (hlenEq : data.length - GVCP_HEADER_SIZE = bytes_to_uint16 ((data.drop 4).take 2)) :
    ackFromBytes data = .ok ⟨false, data.getD 0 0 &&& 0x40 != 0,
      bytes_to_uint12 (data.take 2), bytes_to_uint16 ((data.drop 2).take 2),
      bytes_to_uint16 ((data.drop 4).take 2), bytes_to_uint16 ((data.drop 6).take 2),
      (data.drop 8).take (bytes_to_uint16 ((data.drop 4).take 2))⟩ := by
  unfold ackFromBytes
  rw [if_neg (by omega)]
  rw [hbit]
  simp [hlenEq]

/-- Claim C2 counterexample: a reply whose severity bit is set AND whose
ack-id (5) differs from the outstanding request-id (7) raises `AckError`
during parsing, not the `AckIdError` the claim requires for every reply
with a mismatched ack-id. -/
theorem C2_severity_precedes_ackid :
    handle_ack ⟨false, 500, 500⟩ [0x80, 0, 0, 0x81, 0, 0, 0, 5] (some 7)
      = .error (.ackError ⟨true, false, 0, 0x81, 0, 5, []⟩)
  ∧ handle_ack ⟨false, 500, 500⟩ [0x80, 0, 0, 0x81, 0, 0, 0, 5] (some 7)
      ≠ .error (.ackId 7 5) := by
  exact ⟨by decide, by decide⟩

/-- Claim C2 as amended: among replies that parse without a length error and
whose severity bit is clear, an ack-id differing from the outstanding
request-id raises `AckIdError`; `AckError` is raised only for replies whose
severity bit is set (and is raised during parsing, before the ack-id
comparison). -/
theorem C2_ackid_and_severity (st : GvcpSt) (data : List Nat) (rid : Nat) :
    (GVCP_HEADER_SIZE ≤ data.length →
     data.getD 0 0 &&& 0x80 = 0 →
     data.length - GVCP_HEADER_SIZE = bytes_to_uint16 ((data.drop 4).take 2) →
     bytes_to_uint16 ((data.drop 6).take 2) ≠ rid →
     handle_ack st data (some rid)
       = .error (.ackId rid (bytes_to_uint16 ((data.drop 6).take 2))))
  ∧ (∀ req_id a, handle_ack st data req_id = .error (.ackError a) →
      data.getD 0 0 &&& 0x80 ≠ 0) := by
  constructor
  · intro hlen hbit hlenEq hid
    unfold handle_ack
    rw [ackFromBytes_ok data hlen hbit hlenEq]
    simp only
    rw [if_pos hid]
  · intro req_id a h
    by_contra hbit
    exact handle_ack_no_ackError st data req_id a hbit h

/-- Witness for C2: a non-severity READREG ack with ack-id 5 against
outstanding request-id 7 raises `AckIdError`, and the severity reply of the
counterexample indeed has its severity bit set. -/
theorem C2_ackid_and_severity_witness :
    handle_ack ⟨false, 500, 500⟩ [0, 0, 0, 0x81, 0, 0, 0, 5] (some 7)
      = .error (.ackId 7 5)
  ∧ ([0x80, 0, 0, 0x81, 0, 0, 0, 5] : List Nat).getD 0 0 &&& 0x80 ≠ 0 := by
  constructor
  · exact ((C2_ackid_and_severity ⟨false, 500, 500⟩ [0, 0, 0, 0x81, 0, 0, 0, 5] 7).1
      (by decide) (by decide) (by decide) (by decide)).trans (by decide)
  · exact (C2_ackid_and_severity ⟨false, 500, 500⟩ [0x80, 0, 0, 0x81, 0, 0, 0, 5] 7).2
      (some 7) ⟨true, false, 0, 0x81, 0, 5, []⟩ (by decide)

end Gvcp

namespace Gvcp

/-- A PENDING acknowledgement datagram: severity clear, ack code 0x0089,
4-byte payload whose bytes 2..4 carry the proposed extended timeout `t`
(milliseconds) big-endian, and ack-id `rid`. -/
def mkPendingBytes (t rid : Nat) : List Nat :=
  [0, 0, 0, 0x89, 0, 4, rid / 256 % 256, rid % 256, 0, 0, t / 256 % 256, t % 256]

/-- A final (READREG) acknowledgement datagram with ack-id `rid` and a
4-byte payload carrying the register value 3. -/
def mkReadRegAckBytes (rid : Nat) : List Nat :=
  [0, 0, 0, 0x81, 0, 4, rid / 256 % 256, rid % 256, 0, 0, 0, 3]

/-- The ack `ackFromBytes` yields for `mkPendingBytes t rid`. -/
def pendAckOf (t rid : Nat) : Ack :=
  ⟨false, false, 0, 0x89, 4, rid, [0, 0, t / 256 % 256, t % 256]⟩

/-- The ack `ackFromBytes` yields for `mkReadRegAckBytes rid`. -/
def finalAckOf (rid : Nat) : Ack :=
  ⟨false, false, 0, 0x81, 4, rid, [0, 0, 0, 3]⟩

/-- Two big-endian bytes of a 16-bit value recompose to it. -/
lemma two_bytes_roundtrip (x : Nat) (hx : x < 65536) :
    (x / 256 % 256) <<< 8 + x % 256 = x := by
  rw [Nat.shiftLeft_eq]
  omega

/-- `_handle_ack` on a PENDING ack while not yet pending: extract the
timeout from payload bytes 2..4, set the socket timeout to it plus 10 ms,
and set the pending flag. -/
lemma handle_ack_pending_fresh (st : GvcpSt) (t rid : Nat)
    (ht : t < 65536) (hr : rid < 65536) (hp : st.pending = false) :
    handle_ack st (mkPendingBytes t rid) (some rid)
      = .ok (pendAckOf t rid, ⟨true, t + 10, st.defTimeoutMs⟩) := by
  have hid := two_bytes_roundtrip rid hr
  have htv := two_bytes_roundtrip t ht
  unfold handle_ack mkPendingBytes
  rw [show ackFromBytes [0, 0, 0, 0x89, 0, 4, rid / 256 % 256, rid % 256, 0, 0,
      t / 256 % 256, t % 256] = .ok (pendAckOf t rid) from ?_]
  · simp only [pendAckOf]
    rw [if_neg (by simp)]
    simp only [pendingStep, pendAckOf, hp]
    norm_num [PENDING_ACK, bytes_to_uint16, htv]
    rfl
  · unfold ackFromBytes
    rw [if_neg (by simp [GVCP_HEADER_SIZE])]
    norm_num [bytes_to_uint16, bytes_to_uint12, GVCP_HEADER_SIZE, pendAckOf, hid]

/-- `_handle_ack` on a PENDING ack while already pending: the state,
including the socket timeout, is left unchanged. -/
lemma handle_ack_pending_again (st : GvcpSt) (t rid : Nat)
    (ht : t < 65536) (hr : rid < 65536) (hp : st.pending = true) :
    handle_ack st (mkPendingBytes t rid) (some rid) = .ok (pendAckOf t rid, st) := by
  have hid := two_bytes_roundtrip rid hr
  unfold handle_ack mkPendingBytes
  rw [show ackFromBytes [0, 0, 0, 0x89, 0, 4, rid / 256 % 256, rid % 256, 0, 0,
      t / 256 % 256, t % 256] = .ok (pendAckOf t rid) from ?_]
  · simp only [pendAckOf]
    rw [if_neg (by simp)]
    simp only [pendingStep, pendAckOf, hp]
    norm_num [PENDING_ACK]
    rfl
  · unfold ackFromBytes
    rw [if_neg (by simp [GVCP_HEADER_SIZE])]
    norm_num [bytes_to_uint16, bytes_to_uint12, GVCP_HEADER_SIZE, pendAckOf, hid]

/-- `_handle_ack` on a non-PENDING ack while pending: restore the default
socket timeout and clear the pending flag. -/
lemma handle_ack_final (st : GvcpSt) (rid : Nat)
    (hr : rid < 65536) (hp : st.pending = true) :
    handle_ack st (mkReadRegAckBytes rid) (some rid)
      = .ok (finalAckOf rid, ⟨false, st.defTimeoutMs, st.defTimeoutMs⟩) := by
  have hid := two_bytes_roundtrip rid hr
  unfold handle_ack mkReadRegAckBytes
  rw [show ackFromBytes [0, 0, 0, 0x81, 0, 4, rid / 256 % 256, rid % 256, 0, 0, 0, 3]
      = .ok (finalAckOf rid) from ?_]
  · simp only [finalAckOf]
    rw [if_neg (by simp)]
    simp only [pendingStep, finalAckOf, hp]
    norm_num [PENDING_ACK]
    rfl
  · unfold ackFromBytes
    rw [if_neg (by simp [GVCP_HEADER_SIZE])]
    norm_num [bytes_to_uint16, bytes_to_uint12, GVCP_HEADER_SIZE, finalAckOf, hid]

end Gvcp

namespace Gvcp

/-- Claim C3 counterexample: processing PENDING(100 ms) then PENDING(200 ms)
with matching ack-id 5 leaves the socket timeout at 110 ms after the second
PENDING; it is NOT set to 200 + 10 ms as the claim requires for each
PENDING acknowledgement (the source only updates the timeout when the
pending flag was still clear). -/
theorem C3_second_pending_keeps_timeout :
    handle_ack ⟨false, 500, 500⟩ (mkPendingBytes 100 5) (some 5)
      = .ok (pendAckOf 100 5, ⟨true, 110, 500⟩)
  ∧ handle_ack ⟨true, 110, 500⟩ (mkPendingBytes 200 5) (some 5)
      = .ok (pendAckOf 200 5, ⟨true, 110, 500⟩)
  ∧ (110 : Nat) ≠ 200 + 10 := by
  exact ⟨by decide, by decide, by decide⟩

/-- Claim C3 as amended: for the reply sequence
`[PENDING(t1), PENDING(t2), final ACK]` with matching ack-ids, the receive
loop returns the final acknowledgement and the socket timeout afterwards
equals the pre-call default; the FIRST PENDING sets the socket timeout to
its payload-bytes-2..4 value plus 10 ms, while a PENDING received when the
pending flag is already set leaves the socket timeout unchanged. -/
theorem C3_pending_sequence (t1 t2 rid dft : Nat)
    (h1 : t1 < 65536) (h2 : t2 < 65536) (hr : rid < 65536) :
    recvPhase rid [.datagram (mkPendingBytes t1 rid), .datagram (mkPendingBytes t2 rid),
        .datagram (mkReadRegAckBytes rid)] ⟨false, dft, dft⟩
      = (.ok (finalAckOf rid), ⟨false, dft, dft⟩, [])
  ∧ handle_ack ⟨false, dft, dft⟩ (mkPendingBytes t1 rid) (some rid)
      = .ok (pendAckOf t1 rid, ⟨true, t1 + 10, dft⟩)
  ∧ handle_ack ⟨true, t1 + 10, dft⟩ (mkPendingBytes t2 rid) (some rid)
      = .ok (pendAckOf t2 rid, ⟨true, t1 + 10, dft⟩) := by
  have ha := handle_ack_pending_fresh ⟨false, dft, dft⟩ t1 rid h1 hr rfl
  have hb := handle_ack_pending_again ⟨true, t1 + 10, dft⟩ t2 rid h2 hr rfl
  have hc := handle_ack_final ⟨true, t1 + 10, dft⟩ rid hr rfl
  refine ⟨?_, ha, hb⟩
  rw [recvPhase, ha]
  simp only
  rw [recvPhase, hb]
  simp only
  rw [recvPhase, hc]
  simp

/-- Witness for C3 at PENDING timeouts 1500 and 3000 ms, ack-id 7, default
timeout 500 ms. -/
theorem C3_pending_sequence_witness :
    recvPhase 7 [.datagram (mkPendingBytes 1500 7), .datagram (mkPendingBytes 3000 7),
        .datagram (mkReadRegAckBytes 7)] ⟨false, 500, 500⟩
      = (.ok (finalAckOf 7), ⟨false, 500, 500⟩, [])
  ∧ handle_ack ⟨false, 500, 500⟩ (mkPendingBytes 1500 7) (some 7)
      = .ok (pendAckOf 1500 7, ⟨true, 1510, 500⟩)
  ∧ handle_ack ⟨true, 1510, 500⟩ (mkPendingBytes 3000 7) (some 7)
      = .ok (pendAckOf 3000 7, ⟨true, 1510, 500⟩) :=
  C3_pending_sequence 1500 3000 7 500 (by decide) (by decide) (by decide)

end Gvcp

namespace Gvcp

/-- With every receive timing out, `_exec_request` with `m` re-sends still
allowed sends the request `m + 1` times in total and then surfaces the
socket timeout, leaving the connection state untouched. -/
lemma execRequest_all_timeouts (d : List Nat) (rid : Nat) (st : GvcpSt) :
    ∀ m n, m + 1 ≤ n →
      execRequest d rid true (List.replicate n RecvEvent.timeout) st m
        = (.error .timeout, st, List.replicate (m + 1) d) := by
  intro m
  induction m generalizing st with
  | zero =>
    intro n hn
    obtain ⟨n2, rfl⟩ : ∃ n2, n = n2 + 1 := ⟨n - 1, by omega⟩
    rw [execRequest]
    simp [recvPhase, List.replicate_succ]
  | succ m ih =>
    intro n hn
    obtain ⟨n2, rfl⟩ : ∃ n2, n = n2 + 1 := ⟨n - 1, by omega⟩
    rw [execRequest]
    simp only [List.replicate_succ, recvPhase]
    rw [ih st n2 (by omega)]
    simp [List.replicate_succ]

/-- Claim C4 counterexample: with `retries = 3` and four receive timeouts
available, the request is sent exactly 3 times in total (the first send plus
2 re-sends), not the 4 sends that up to 3 retries would produce. -/
theorem C4_three_sends_not_four :
    (requestModel 3 [0x42, 0, 0, 2, 0, 0, 0, 1] 1 true
        (List.replicate 4 RecvEvent.timeout) ⟨false, 500, 500⟩).2.2
      = [[0x42, 0, 0, 2, 0, 0, 0, 1], [0x42, 0, 0, 2, 0, 0, 0, 1],
         [0x42, 0, 0, 2, 0, 0, 0, 1]]
  ∧ (requestModel 3 [0x42, 0, 0, 2, 0, 0, 0, 1] 1 true
        (List.replicate 4 RecvEvent.timeout) ⟨false, 500, 500⟩).2.2.length ≠ 4 := by
  exact ⟨by decide, by decide⟩

/-- Claim C4 as amended: on receive timeouts the acknowledged request is
re-sent, every send being the same request bytes (hence the same request-id),
up to `retries` total attempts, i.e. `retries - 1` re-sends (default
`retries = 3`: three sends); after exhaustion the socket timeout surfaces to
the caller.  A malformed reply (any parse or validation error from
`_handle_ack`) is not retried: the error propagates after a single send. -/
theorem C4_retry_and_malformed (retries : Nat) (d : List Nat) (rid : Nat)
    (st : GvcpSt) (n : Nat) (bad : List Nat) (rest : List RecvEvent) (e : GvcpError) :
    (1 ≤ retries → retries ≤ n →
      requestModel retries d rid true (List.replicate n RecvEvent.timeout) st
        = (.error .timeout, st, List.replicate retries d))
  ∧ (handle_ack st bad (some rid) = .error e →
      requestModel retries d rid true (RecvEvent.datagram bad :: rest) st
        = (.error e, st, [d])) := by
  constructor
  · intro h1 hn
    rw [requestModel]
    rw [show retries = (retries - 1) + 1 from by omega]
    rw [show retries - 1 + 1 - 1 = retries - 1 from by omega]
    exact execRequest_all_timeouts d rid st (retries - 1) n (by omega)
  · intro h
    have hne : e ≠ .timeout := handle_ack_ne_timeout st bad (some rid) e h
    rw [requestModel, execRequest]
    simp only [recvPhase, h]
    cases e <;> first
      | exact absurd rfl hne
      | simp

/-- Witness for C4: retries 3 with three available timeouts, and a
malformed (too short) reply that propagates `AckLengthError` after one
send. -/
theorem C4_retry_and_malformed_witness :
    requestModel 3 [0x42] 1 true (List.replicate 3 RecvEvent.timeout) ⟨false, 500, 500⟩
      = (.error .timeout, ⟨false, 500, 500⟩, List.replicate 3 [0x42])
  ∧ requestModel 3 [0x42] 1 true [RecvEvent.datagram [1, 2, 3]] ⟨false, 500, 500⟩
      = (.error (.ackLength 8 3), ⟨false, 500, 500⟩, [[0x42]]) :=
  ⟨(C4_retry_and_malformed 3 [0x42] 1 ⟨false, 500, 500⟩ 3 [1, 2, 3] [] (.ackLength 8 3)).1
      (by decide) (by decide),
   (C4_retry_and_malformed 3 [0x42] 1 ⟨false, 500, 500⟩ 3 [1, 2, 3] [] (.ackLength 8 3)).2
      (by decide)⟩

end Gvcp

namespace Gvcp

/-- `GVCPReadMemCmd` validation passes for a 4-aligned 32-bit address and a
byte count in range. -/
lemma readMemValidate_ok (addr count : Nat) (ha : addr % 4 = 0)
    (hamax : addr ≤ 0xffffffff) (hc1 : 1 ≤ count) (hc4 : count % 4 = 0)
    (hcmax : count ≤ 536) :
    readMemCmdValidate addr count = .ok () := by
  have hmax : READMEM_MAX_PAYLOAD_SIZE = 536 := by decide
  have h1 : is_uint32_4_multiple addr = true := by
    simp only [is_uint32_4_multiple, Bool.and_eq_true, decide_eq_true_eq, beq_iff_eq]
    omega
  have h2 : is_uint32_4_multiple count = true := by
    simp only [is_uint32_4_multiple, Bool.and_eq_true, decide_eq_true_eq, beq_iff_eq]
    omega
  rw [readMemCmdValidate, if_neg (by simp [h1]), if_neg (by omega),
    if_neg (by simp [h2]), if_neg (by rw [hmax]; omega)]

/-- `GVCPReadMemCmd` rejects a byte count of 0 (`count < 1`) with
`ValueError`, for any valid address. -/
lemma readMemValidate_zero (addr : Nat) (ha : addr % 4 = 0)
    (hamax : addr ≤ 0xffffffff) :
    readMemCmdValidate addr 0 = .error .valueError := by
  have h1 : is_uint32_4_multiple addr = true := by
    simp only [is_uint32_4_multiple, Bool.and_eq_true, decide_eq_true_eq, beq_iff_eq]
    omega
  rw [readMemCmdValidate, if_neg (by simp [h1]), if_pos (by omega)]

/-- The 512-byte chunk loop consumes whole chunks: starting from a 4-aligned
address whose range stays within 32 bits, it succeeds and ends at
`addr + (len - len % 512)` with `len % 512` bytes left to fetch. -/
lemma fetchLoop_spec (mem : Nat → Nat) : ∀ len addr acc, addr % 4 = 0 →
    addr + len ≤ 0xffffffff →
    ∃ out, fetchLoop mem addr len acc
      = .ok (out, addr + (len - len % 512), len % 512) := by
  intro len
  induction len using Nat.strong_induction_on with
  | _ len ih =>
    intro addr acc h4 hle
    rw [fetchLoop]
    by_cases hcase : 512 ≤ len
    · rw [dif_pos hcase]
      have hval : readMemCmdValidate addr 512 = .ok () :=
        readMemValidate_ok addr 512 h4 (by omega) (by omega) (by omega) (by omega)
      simp only [readmemModel, hval]
      obtain ⟨out, hout⟩ := ih (len - 512) (by omega) (addr + 512)
        (acc ++ (List.range 512).map (fun i => mem (addr + i))) (by omega) (by omega)
      refine ⟨out, ?_⟩
      rw [hout]
      have e1 : addr + 512 + ((len - 512) - (len - 512) % 512)
          = addr + (len - len % 512) := by omega
      have e2 : (len - 512) % 512 = len % 512 := by omega
      rw [e1, e2]
    · rw [dif_neg hcase]
      refine ⟨acc, ?_⟩
      have e1 : addr + (len - len % 512) = addr := by omega
      have e2 : len % 512 = len := by omega
      rw [e1, e2]

end Gvcp

namespace Gvcp

/-- Claim C9 as amended: for a `local` device description URL with extension
"xml" whose 4-aligned address range stays within 32 bits and whose declared
length is NOT a multiple of 512 (so the chunked fetch itself succeeds,
including the final rounded-up READMEM), `get_device_description_file`
raises `AckValueError` (unsupported device description file format) after
fetching the data and never returns the XML text, because the zip/else
branch is evaluated independently of the xml branch. -/
theorem C9_local_xml (mem : Nat → Nat) (addr len : Nat)
    (h4 : addr % 4 = 0) (hle : addr + len ≤ 0xffffffff) (hmod : len % 512 ≠ 0) :
    get_ddf_local mem addr len "xml" = .error (.ackValue "xml") := by
  obtain ⟨out, hout⟩ := fetchLoop_spec mem len addr [] h4 hle
  simp only [get_ddf_local, hout]
  by_cases hm4 : len % 512 % 4 = 0
  · rw [if_neg (by omega)]
    have hval : readMemCmdValidate (addr + (len - len % 512)) (len % 512) = .ok () :=
      readMemValidate_ok _ _ (by omega) (by omega) (by omega) (by omega) (by omega)
    simp only [readmemModel, hval]
    simp only [ddfFormat]
    rw [if_neg (by decide)]
  · rw [if_pos (by omega)]
    have hval : readMemCmdValidate (addr + (len - len % 512))
        (len % 512 + 4 - len % 512 % 4) = .ok () :=
      readMemValidate_ok _ _ (by omega) (by omega) (by omega) (by omega) (by omega)
    simp only [readmemModel, hval]
    simp only [ddfFormat]
    rw [if_neg (by decide)]

/-- Witness for C9 at a 4-byte XML description at address 0. -/
theorem C9_local_xml_witness :
    get_ddf_local zeroMem 0 4 "xml" = .error (.ackValue "xml") :=
  C9_local_xml zeroMem 0 4 (by decide) (by decide) (by decide)

/-- Claim C9 counterexample: for a `local` "xml" URL whose declared length
is 512 (a positive multiple of 512), the call raises `ValueError` from the
final zero-count READMEM, not the `AckValueError` the claim states for
every local xml URL. -/
theorem C9_xml_len512_raises_valueerror :
    get_ddf_local zeroMem 0 512 "xml" = .error .valueError
  ∧ get_ddf_local zeroMem 0 512 "xml" ≠ .error (.ackValue "xml") := by
  have key : get_ddf_local zeroMem 0 512 "xml" = .error .valueError := by
    obtain ⟨out, hout⟩ := fetchLoop_spec zeroMem 512 0 [] (by decide) (by decide)
    norm_num at hout
    simp only [get_ddf_local, hout]
    rw [if_neg (by omega)]
    have hz := readMemValidate_zero 512 (by omega) (by omega)
    simp only [readmemModel, hz]
  exact ⟨key, by rw [key]; decide⟩

/-- Claim C10: for a `local` device description URL whose declared length is
a positive multiple of 512 (4-aligned address range within 32 bits), the
chunk loop consumes everything, leaving 0 bytes, so the code issues a final
READMEM with byte-count 0, which the READMEM command constructor rejects:
the call raises `ValueError` instead of returning the file, for any
extension. -/
theorem C10_final_readmem_zero (mem : Nat → Nat) (addr len : Nat) (ext : String)
    (h4 : addr % 4 = 0) (hle : addr + len ≤ 0xffffffff)
    (hmod : len % 512 = 0) (hpos : 0 < len) :
    (fetchLoop mem addr len []).map (fun r => (r.2.1, r.2.2)) = .ok (addr + len, 0)
  ∧ get_ddf_local mem addr len ext = .error .valueError := by
  obtain ⟨out, hout⟩ := fetchLoop_spec mem len addr [] h4 hle
  simp only [hmod, Nat.sub_zero] at hout
  constructor
  · rw [hout]
    rfl
  · simp only [get_ddf_local, hout]
    rw [if_neg (by omega)]
    have hz := readMemValidate_zero (addr + len) (by omega) (by omega)
    simp only [readmemModel, hz]

/-- Witness for C10 at a 512-byte description at address 0. -/
theorem C10_final_readmem_zero_witness :
    (fetchLoop zeroMem 0 512 []).map (fun r => (r.2.1, r.2.2)) = .ok (512, 0)
  ∧ get_ddf_local zeroMem 0 512 "xml" = .error .valueError := by
  have h := C10_final_readmem_zero zeroMem 0 512 "xml" (by decide) (by decide)
    (by decide) (by decide)
  exact ⟨h.1.trans (by norm_num), h.2⟩

end Gvcp
